import Mathlib

/-!
Verification of the hyperboloid navigation core of SnapPy
(`dev/raytracing/hyperboloid_navigation.py`).

The navigation file is a Tk mixin manipulating:
  mouse_pos_when_pressed, view_state_when_pressed, last_mouse_pos,
  current_keys_pressed, time_key_release_received, last_time, view_state,
  the navigation velocities, and the three orbit matrices.
We embed each event handler as a pure function on an explicit state record.
The view state is opaque in the source (owned by raytracing_data), so it is
a type parameter V and the external update function is passed explicitly.
Timestamps and screen coordinates are rationals (exact stand-ins for the
floats of the source); matrix entries are real numbers.

Tk scheduling (self.after) is modelled by a counter of armed tick
callbacks: tkKeyPress increments it when it arms, and an invocation of
do_movement consumes one armed callback and re-arms (increments) exactly
when it re-schedules itself in the source.
-/

/-- The 4x4 real matrices in which all Lorentz operators live. -/
abbrev Mat4 := Matrix (Fin 4) (Fin 4) ℝ

/-- The literal 4x4 identity matrix, as built inline by `do_movement` and
`tkAltButton1` in the source. -/
noncomputable def idMat4 : Mat4 :=
  !![1, 0, 0, 0;
     0, 1, 0, 0;
     0, 0, 1, 0;
     0, 0, 0, 1]

/-- Modelled from the spec: `O13_x_rotation` from the `hyperboloid_utilities`
module, which is not among the provided sources.  Per spec section 4.1 it is the
4x4 block-diagonal matrix rotating the two spatial coordinates orthogonal to
the x-axis (coordinates 2 and 3, with coordinate 0 the time coordinate) by the
given angle, fixing the time coordinate and the x coordinate. -/
noncomputable def O13_x_rotation (t : ℝ) : Mat4 :=
  !![1, 0, 0, 0;
     0, 1, 0, 0;
     0, 0, Real.cos t, -Real.sin t;
     0, 0, Real.sin t, Real.cos t]

/-- Modelled from the spec: `O13_y_rotation` from the missing
`hyperboloid_utilities` module; rotates coordinates 1 and 3 by the given
angle, fixing the time coordinate and the y coordinate. -/
noncomputable def O13_y_rotation (t : ℝ) : Mat4 :=
  !![1, 0, 0, 0;
     0, Real.cos t, 0, Real.sin t;
     0, 0, 1, 0;
     0, -Real.sin t, 0, Real.cos t]

/-- Modelled from the spec: `O13_z_rotation` from the missing
`hyperboloid_utilities` module; rotates coordinates 1 and 2 by the given
angle, fixing the time coordinate and the z coordinate. -/
noncomputable def O13_z_rotation (t : ℝ) : Mat4 :=
  !![1, 0, 0, 0;
     0, Real.cos t, -Real.sin t, 0;
     0, Real.sin t, Real.cos t, 0;
     0, 0, 0, 1]

/-- Modelled from the spec:
`unit_3_vector_and_distance_to_O13_hyperbolic_translation` from the missing
`hyperboloid_utilities` module.  Per spec section 4.1 it is the standard
Lorentz boost along the given spatial unit direction by the given signed
hyperbolic distance, built from `cosh` and `sinh` of the distance; the
direction is assumed pre-normalized by the caller and is not validated. -/
noncomputable def unit_3_vector_and_distance_to_O13_hyperbolic_translation
    (u : Fin 3 → ℝ) (d : ℝ) : Mat4 :=
  !![Real.cosh d, Real.sinh d * u 0, Real.sinh d * u 1, Real.sinh d * u 2;
     Real.sinh d * u 0, 1 + (Real.cosh d - 1) * u 0 * u 0,
       (Real.cosh d - 1) * u 0 * u 1, (Real.cosh d - 1) * u 0 * u 2;
     Real.sinh d * u 1, (Real.cosh d - 1) * u 1 * u 0,
       1 + (Real.cosh d - 1) * u 1 * u 1, (Real.cosh d - 1) * u 1 * u 2;
     Real.sinh d * u 2, (Real.cosh d - 1) * u 2 * u 0,
       (Real.cosh d - 1) * u 2 * u 1, 1 + (Real.cosh d - 1) * u 2 * u 2]

/-- Modelled from the spec: the normalization `vector(...).normalized()`
used by `tkAltButton1`; division of each component by the Euclidean length
(the spec's "normalizing to unit length"). -/
noncomputable def normalized3 (v : Fin 3 → ℝ) : Fin 3 → ℝ :=
  fun i => v i / Real.sqrt ((v 0)^2 + (v 1)^2 + (v 2)^2)

/-- Modelled from the spec: the inverse hyperbolic tangent `math.atanh`
used for the orbit translation distances. -/
noncomputable def artanh (x : ℝ) : ℝ := Real.log ((1 + x) / (1 - x)) / 2

/-- The Minkowski quadratic form of signature (-,+,+,+). -/
def Qform (v : Fin 4 → ℝ) : ℝ := -(v 0)^2 + (v 1)^2 + (v 2)^2 + (v 3)^2

/-- A matrix preserves the Minkowski quadratic form on every 4-vector. -/
def preservesQ (M : Mat4) : Prop := ∀ v : Fin 4 → ℝ, Qform (M.mulVec v) = Qform v

/-- The global key-binding table `_key_movement_bindings` of
`hyperboloid_navigation.py`: each of the twelve movement keys maps to a
function of (rotation amount, translation amount) building its operator. -/
noncomputable def _key_movement_bindings (k : String) : Option (ℝ → ℝ → Mat4) :=
  if k = "a" then
    some (fun _ ta => unit_3_vector_and_distance_to_O13_hyperbolic_translation ![-1, 0, 0] ta)
  else if k = "d" then
    some (fun _ ta => unit_3_vector_and_distance_to_O13_hyperbolic_translation ![1, 0, 0] ta)
  else if k = "c" then
    some (fun _ ta => unit_3_vector_and_distance_to_O13_hyperbolic_translation ![0, -1, 0] ta)
  else if k = "e" then
    some (fun _ ta => unit_3_vector_and_distance_to_O13_hyperbolic_translation ![0, 1, 0] ta)
  else if k = "w" then
    some (fun _ ta => unit_3_vector_and_distance_to_O13_hyperbolic_translation ![0, 0, -1] ta)
  else if k = "s" then
    some (fun _ ta => unit_3_vector_and_distance_to_O13_hyperbolic_translation ![0, 0, 1] ta)
  else if k = "Left" then some (fun ra _ => O13_y_rotation (-ra))
  else if k = "Right" then some (fun ra _ => O13_y_rotation ra)
  else if k = "Up" then some (fun ra _ => O13_x_rotation (-ra))
  else if k = "Down" then some (fun ra _ => O13_x_rotation ra)
  else if k = "x" then some (fun ra _ => O13_z_rotation (-ra))
  else if k = "z" then some (fun ra _ => O13_z_rotation ra)
  else none

/-- Association-list lookup, the embedding of Python dict indexing. -/
def lookupA : List (String × ℚ) → String → Option ℚ
  | [], _ => none
  | p :: rest, k => if p.1 == k then some p.2 else lookupA rest k

/-- Lookup defaulting to 0 (the source only reads keys it has written). -/
def lookupD (l : List (String × ℚ)) (k : String) : ℚ := (lookupA l k).getD 0

/-- Association-list update, the embedding of Python dict assignment:
replaces an existing binding in place, else appends (insertion order). -/
def insertA : List (String × ℚ) → String → ℚ → List (String × ℚ)
  | [], k, v => [(k, v)]
  | p :: rest, k, v => if p.1 == k then (k, v) :: rest else p :: insertA rest k v

/-- Association-list deletion, the embedding of Python `del d[k]`. -/
def eraseA (l : List (String × ℚ)) (k : String) : List (String × ℚ) :=
  l.filter (fun p => !(p.1 == k))

/-- The mutable state of the `HyperboloidNavigation` mixin, over an opaque
view-state type V.  `pending_ticks` counts armed `do_movement` callbacks. -/
structure NavState (V : Type) where
  mouse_pos_when_pressed : Option (ℚ × ℚ)
  view_state_when_pressed : V
  last_mouse_pos : Option (ℚ × ℚ)
  current_keys_pressed : List String
  time_key_release_received : List (String × ℚ)
  last_time : List (String × ℚ)
  view_state : V
  translationVelocity : ℚ
  rotationVelocity : ℚ
  orbit_translation : Mat4
  orbit_inv_translation : Mat4
  orbit_rotation : Mat4
  pending_ticks : ℕ

/-- The tick handler `do_movement`, invoked at absolute time `t` (seconds):
evict keys whose recorded release is older than 0.005 s, then fold over the
remaining held keys building each bound key's incremental operator from the
time elapsed since the key's own last-integrated timestamp (updating it to
`t`), accumulate by right multiplication into the literal identity, and if
any bound key was seen apply the accumulator to the view state via `upd`
and re-arm; otherwise stop without touching the view state.  Consuming the
armed callback that invoked us decrements `pending_ticks`; re-arming
increments it. -/
noncomputable def do_movement {V : Type} (upd : V → Mat4 → V) (t : ℚ)
    (s : NavState V) : NavState V :=
  let keys1 := s.current_keys_pressed.filter (fun k =>
    match lookupA s.time_key_release_received k with
    | some tr => !(decide (t - tr > 0.005))
    | none => true)
  let r := keys1.foldl (fun (p : Mat4 × List (String × ℚ)) k =>
    match _key_movement_bindings k with
    | some f =>
      let diff := t - lookupD p.2 k
      (p.1 * f ((diff * s.rotationVelocity : ℚ) : ℝ)
              ((diff * s.translationVelocity : ℚ) : ℝ),
       insertA p.2 k t)
    | none => p) (idMat4, s.last_time)
  let a := keys1.any (fun k => (_key_movement_bindings k).isSome)
  if a then
    { s with current_keys_pressed := keys1,
             last_time := r.2,
             view_state := upd s.view_state r.1,
             pending_ticks := s.pending_ticks - 1 + 1 }
  else
    { s with current_keys_pressed := keys1,
             last_time := r.2,
             pending_ticks := s.pending_ticks - 1 }

/-- The key-release handler `tkKeyRelease`: unconditionally record the
release time for the released key. -/
def tkKeyRelease {V : Type} (t : ℚ) (key : String) (s : NavState V) :
    NavState V :=
  { s with time_key_release_received := insertA s.time_key_release_received key t }

/-- The key-press handler `tkKeyPress` at time `t`: for a movement-bound
key, delete any pending release record; if the key is not already held,
record `t` as its last-integrated time, add it to the held keys and arm a
`do_movement` callback.  (The source's extra branches for keys "u" and "v"
touch only debug printing and the renderer's view mode, neither of which is
navigation state.) -/
noncomputable def tkKeyPress {V : Type} (t : ℚ) (key : String)
    (s : NavState V) : NavState V :=
  if (_key_movement_bindings key).isSome then
    let s1 := { s with
      time_key_release_received := eraseA s.time_key_release_received key }
    if key ∈ s1.current_keys_pressed then s1
    else { s1 with
      last_time := insertA s1.last_time key t,
      current_keys_pressed := s1.current_keys_pressed ++ [key],
      pending_ticks := s1.pending_ticks + 1 }
  else s

/-- The plain button-press handler `tkButton1`: anchor the mouse position
and the current view state. -/
def tkButton1 {V : Type} (x y : ℚ) (s : NavState V) : NavState V :=
  { s with mouse_pos_when_pressed := some (x, y),
           view_state_when_pressed := s.view_state }

/-- The button-release handler `tkButtonRelease1`: clear the press anchor
(and nothing else). -/
def tkButtonRelease1 {V : Type} (s : NavState V) : NavState V :=
  { s with mouse_pos_when_pressed := none }

/-- The free-drag handler `tkButtonMotion1`: no-op without an anchor;
on zero delta restore the anchored view state; otherwise translate the
anchored view state along the normalized in-plane perpendicular direction
(x inverted, y kept, 0 depth) by distance |delta| * 0.01.  The source
computes `amt = sqrt(dx^2+dy^2)` and branches on `amt == 0`, which is
equivalent to branching on `dx^2 + dy^2 = 0`. -/
noncomputable def tkButtonMotion1 {V : Type} (upd : V → Mat4 → V)
    (x y : ℚ) (s : NavState V) : NavState V :=
  match s.mouse_pos_when_pressed with
  | none => s
  | some (px, py) =>
    let dx := x - px
    let dy := y - py
    if dx^2 + dy^2 = 0 then
      { s with view_state := s.view_state_when_pressed }
    else
      let amt : ℝ := Real.sqrt ((dx^2 + dy^2 : ℚ) : ℝ)
      let m := unit_3_vector_and_distance_to_O13_hyperbolic_translation
        ![-(dx : ℝ) / amt, (dy : ℝ) / amt, 0] (amt * 0.01)
      { s with view_state := upd s.view_state_when_pressed m }

/-- The modifier-drag handler `tkCtrlButtonMotion1`: no-op without an
anchor; otherwise rotate the current (not anchored) view state by
`O13_y_rotation(-dx*0.01) * O13_x_rotation(-dy*0.01)` relative to the
previous sample, and advance the stored sample position. -/
noncomputable def tkCtrlButtonMotion1 {V : Type} (upd : V → Mat4 → V)
    (x y : ℚ) (s : NavState V) : NavState V :=
  match s.mouse_pos_when_pressed with
  | none => s
  | some (px, py) =>
    let m := O13_y_rotation (-((x - px : ℚ) : ℝ) * 0.01)
           * O13_x_rotation (-((y - py : ℚ) : ℝ) * 0.01)
    { s with view_state := upd s.view_state m,
             mouse_pos_when_pressed := some (x, y) }

/-- The orbit-press handler `tkAltButton1` with externally read inputs:
the depth value at the pixel, the viewport dimensions and the field of
view (degrees).  Anchors the sample position and view state, unprojects
the pixel (flip y, center, divide both axes by the width, depth axis
-0.5 / tan(fov/360*pi), normalize), and builds the forward and inverse
orbit translations of distances atanh(depth) and atanh(-depth) together
with an identity accumulated rotation. -/
noncomputable def tkAltButton1 {V : Type} (x y : ℚ) (depth : ℝ)
    (width height : ℚ) (fov : ℝ) (s : NavState V) : NavState V :=
  let fx : ℚ := (x - 0.5 * width) / width
  let fy : ℚ := ((height - y) - 0.5 * height) / width
  let dir : Fin 3 → ℝ :=
    normalized3 ![(fx : ℝ), (fy : ℝ), -0.5 / Real.tan (fov / 360 * Real.pi)]
  { s with
    last_mouse_pos := some (x, y),
    view_state_when_pressed := s.view_state,
    orbit_translation :=
      unit_3_vector_and_distance_to_O13_hyperbolic_translation dir (artanh depth),
    orbit_inv_translation :=
      unit_3_vector_and_distance_to_O13_hyperbolic_translation dir (artanh (-depth)),
    orbit_rotation := idMat4 }

/-- The orbit-drag handler `tkAltButtonMotion1`: no-op without an orbit
anchor; otherwise build `O13_y_rotation(dx*0.01) * O13_x_rotation(dy*0.01)`
from the delta to the previous sample, fold it into the accumulated
rotation by right multiplication, rebuild the view state from the anchored
view state through the translate-rotate-untranslate sandwich, and advance
the stored sample position. -/
noncomputable def tkAltButtonMotion1 {V : Type} (upd : V → Mat4 → V)
    (x y : ℚ) (s : NavState V) : NavState V :=
  match s.last_mouse_pos with
  | none => s
  | some (px, py) =>
    let m := O13_y_rotation (((x - px : ℚ) : ℝ) * 0.01)
           * O13_x_rotation (((y - py : ℚ) : ℝ) * 0.01)
    let rot := s.orbit_rotation * m
    { s with orbit_rotation := rot,
             view_state := upd s.view_state_when_pressed
               (s.orbit_translation * rot * s.orbit_inv_translation),
             last_mouse_pos := some (x, y) }

/-- A state with only the key "a" held, one armed tick callback and empty
release records, as produced by pressing "a" on a fresh instance. -/
noncomputable def exHeldA : NavState Unit :=
  ⟨none, Unit.unit, none, ["a"], [], [("a", 0)], Unit.unit, 2/5, 2/5,
   idMat4, idMat4, idMat4, 1⟩

/-- A state with a free-gesture anchor at (100, 100) over view states
modelled as natural numbers. -/
noncomputable def exAnchored : NavState ℕ :=
  ⟨some (100, 100), 7, none, [], [], [], 9, 2/5, 2/5, idMat4, idMat4, idMat4, 0⟩

/-- A state in the middle of an orbit gesture, over view states modelled as
natural numbers: both anchors set at (0, 0). -/
noncomputable def exOrbit : NavState ℕ :=
  ⟨some (0, 0), 0, some (0, 0), [], [], [], 0, 2/5, 2/5, idMat4, idMat4, idMat4, 0⟩

/-- Following claim C3's words, for comparison with the code: the per-tick
fold with each held key's operator LEFT-multiplied into the accumulator
(accumulator becomes operator * accumulator), everything else identical to
the tick fold of `do_movement`. -/
noncomputable def claimed_tick_operator {V : Type} (t : ℚ) (s : NavState V) : Mat4 :=
  let keys1 := s.current_keys_pressed.filter (fun k =>
    match lookupA s.time_key_release_received k with
    | some tr => !(decide (t - tr > 0.005))
    | none => true)
  (keys1.foldl (fun (p : Mat4 × List (String × ℚ)) k =>
    match _key_movement_bindings k with
    | some f =>
      let diff := t - lookupD p.2 k
      (f ((diff * s.rotationVelocity : ℚ) : ℝ)
         ((diff * s.translationVelocity : ℚ) : ℝ) * p.1,
       insertA p.2 k t)
    | none => p) (idMat4, s.last_time)).1

/-- A state holding the two keys "a" and "Left" with one tick in flight,
over view states modelled as matrices so that an update function can record
the operator a tick applies. -/
noncomputable def exC3 : NavState Mat4 :=
  ⟨none, idMat4, none, ["a", "Left"], [], [("a", 0), ("Left", 0)], idMat4,
   2/5, 2/5, idMat4, idMat4, idMat4, 1⟩

theorem preservesQ_x_rotation (t : ℝ) : preservesQ (O13_x_rotation t) := by
  intro v
  simp [Qform, O13_x_rotation, Matrix.mulVec, Matrix.dotProduct, Fin.sum_univ_four]
  linear_combination ((v 2)^2 + (v 3)^2) * Real.sin_sq_add_cos_sq t

theorem preservesQ_y_rotation (t : ℝ) : preservesQ (O13_y_rotation t) := by
  intro v
  simp [Qform, O13_y_rotation, Matrix.mulVec, Matrix.dotProduct, Fin.sum_univ_four]
  linear_combination ((v 1)^2 + (v 3)^2) * Real.sin_sq_add_cos_sq t

theorem preservesQ_z_rotation (t : ℝ) : preservesQ (O13_z_rotation t) := by
  intro v
  simp [Qform, O13_z_rotation, Matrix.mulVec, Matrix.dotProduct, Fin.sum_univ_four]
  linear_combination ((v 1)^2 + (v 2)^2) * Real.sin_sq_add_cos_sq t

theorem preservesQ_translation (u : Fin 3 → ℝ)
    (hu : (u 0)^2 + (u 1)^2 + (u 2)^2 = 1) (d : ℝ) :
    preservesQ (unit_3_vector_and_distance_to_O13_hyperbolic_translation u d) := by
  intro v
  have h1 := Real.cosh_sq_sub_sinh_sq d
  simp [Qform, unit_3_vector_and_distance_to_O13_hyperbolic_translation,
    Matrix.mulVec, Matrix.dotProduct, Fin.sum_univ_four]
  linear_combination
    (Real.sinh d^2*(v 0)^2
      + 2*Real.sinh d*(Real.cosh d - 1)*(v 0)*(u 0*v 1+u 1*v 2+u 2*v 3)
      + (Real.cosh d - 1)^2*(u 0*v 1+u 1*v 2+u 2*v 3)^2) * hu
    + ((u 0*v 1+u 1*v 2+u 2*v 3)^2 - (v 0)^2) * h1

theorem preservesQ_mul (M N : Mat4) (hM : preservesQ M) (hN : preservesQ N) :
    preservesQ (M * N) := by
  intro v
  rw [← Matrix.mulVec_mulVec]
  rw [hM, hN]

theorem normalized3_unit (p : Fin 3 → ℝ)
    (hp : (p 0)^2 + (p 1)^2 + (p 2)^2 ≠ 0) :
    (normalized3 p 0)^2 + (normalized3 p 1)^2 + (normalized3 p 2)^2 = 1 := by
  have hS : (0:ℝ) ≤ (p 0)^2 + (p 1)^2 + (p 2)^2 := by positivity
  have hsq := Real.sq_sqrt hS
  have hne : Real.sqrt ((p 0)^2 + (p 1)^2 + (p 2)^2) ≠ 0 := by
    intro h0
    rw [h0] at hsq
    simp at hsq
    exact hp hsq.symm
  simp only [normalized3, div_pow]
  rw [div_add_div_same, div_add_div_same, hsq]
  exact div_self hp

theorem idMat4_eq_one : idMat4 = 1 := by
  ext i j
  fin_cases i <;> fin_cases j <;>
    simp [idMat4, Matrix.one_apply, Matrix.vecHead, Matrix.vecTail]

theorem lookupA_insertA_self (l : List (String × ℚ)) (k : String) (v : ℚ) :
    lookupA (insertA l k v) k = some v := by
  induction l with
  | nil => simp [insertA, lookupA]
  | cons p rest ih =>
    by_cases h : p.1 = k
    · simp [insertA, lookupA, h]
    · simp [insertA, lookupA, h, ih]

theorem lookupA_insertA_ne (l : List (String × ℚ)) (k k2 : String) (v : ℚ)
    (h : k2 ≠ k) : lookupA (insertA l k v) k2 = lookupA l k2 := by
  have hks : ¬ k = k2 := fun h2 => h h2.symm
  induction l with
  | nil => simp [insertA, lookupA, hks]
  | cons p rest ih =>
    by_cases hp : p.1 = k
    · simp [insertA, lookupA, hp, hks]
    · simp [insertA, lookupA, hp, ih]

/-- Claim C2 counterexample: in a state where "a" is already held (one tick
chain in flight), pressing the distinct movement key "d" arms a second
concurrent tick chain; the arming guard tests the pressed key, not the
held set. -/
theorem C2_second_key_arms_second_tick_chain :
    exHeldA.current_keys_pressed = ["a"] ∧ exHeldA.pending_ticks = 1
    ∧ (tkKeyPress 5 "d" exHeldA).pending_ticks = 2 := ⟨rfl, rfl, rfl⟩

/-- Claim C2 (amended): the key-press handler arms the tick callback only
when the pressed key itself is not already held — arming is a no-op for a
repeat press of a held key, but a second, distinct movement key pressed
while another is held does arm an additional concurrent tick chain. -/
theorem C2_tick_arming_guard_is_per_key (V : Type) (t : ℚ) (k : String)
    (s : NavState V) (hb : (_key_movement_bindings k).isSome = true) :
    (k ∈ s.current_keys_pressed → (tkKeyPress t k s).pending_ticks = s.pending_ticks)
    ∧ (k ∉ s.current_keys_pressed →
        (tkKeyPress t k s).pending_ticks = s.pending_ticks + 1) := by
  constructor
  · intro hmem
    simp [tkKeyPress, hb, hmem]
  · intro hmem
    simp [tkKeyPress, hb, hmem]

theorem C2_tick_arming_guard_witness :
    (tkKeyPress 5 "a" exHeldA).pending_ticks = exHeldA.pending_ticks :=
  (C2_tick_arming_guard_is_per_key Unit 5 "a" exHeldA rfl).1 (List.Mem.head _)

/-- Claim C7: a free-gesture drag event at exactly the anchor position
(zero screen delta) takes the zero-magnitude branch and restores the view
state captured at press, changing nothing else. -/
theorem C7_zero_delta_restores_anchor (V : Type) (upd : V → Mat4 → V)
    (px py : ℚ) (s : NavState V)
    (h : s.mouse_pos_when_pressed = some (px, py)) :
    tkButtonMotion1 upd px py s
      = { s with view_state := s.view_state_when_pressed } := by
  simp [tkButtonMotion1, h]

theorem C7_zero_delta_witness :
    tkButtonMotion1 (fun (v : ℕ) _ => v) 100 100 exAnchored
      = { exAnchored with view_state := exAnchored.view_state_when_pressed } :=
  C7_zero_delta_restores_anchor ℕ (fun v _ => v) 100 100 exAnchored rfl

/-- Claim C9: a key-press event for a movement-bound key that is already in
the held set deletes any pending release record for that key and changes
nothing else — no timestamp reset, no held-set change, no tick arming, no
view-state change. -/
theorem C9_repeat_press_only_clears_release_record (V : Type) (t : ℚ)
    (k : String) (s : NavState V)
    (hb : (_key_movement_bindings k).isSome = true)
    (hmem : k ∈ s.current_keys_pressed) :
    tkKeyPress t k s
      = { s with time_key_release_received := eraseA s.time_key_release_received k } := by
  simp [tkKeyPress, hb, hmem]

theorem C9_repeat_press_witness :
    tkKeyPress 7 "a" exHeldA
      = { exHeldA with
          time_key_release_received := eraseA exHeldA.time_key_release_received "a" } :=
  C9_repeat_press_only_clears_release_record Unit 7 "a" exHeldA rfl (List.Mem.head _)

/-- Claim C10: the key-release handler records a release timestamp for
every key identifier (preserving other records); the tick handler never
changes the release map (debounce eviction only shrinks the held set); and
a key-press deletes exactly the pressed key's record when the key is
movement-bound and leaves the state untouched otherwise. -/
theorem C10_release_records_persist (V : Type) :
    (∀ (t : ℚ) (k : String) (s : NavState V),
      lookupA (tkKeyRelease t k s).time_key_release_received k = some t)
    ∧ (∀ (t : ℚ) (k k2 : String) (s : NavState V), k2 ≠ k →
      lookupA (tkKeyRelease t k s).time_key_release_received k2
        = lookupA s.time_key_release_received k2)
    ∧ (∀ (upd : V → Mat4 → V) (t : ℚ) (s : NavState V),
      (do_movement upd t s).time_key_release_received
        = s.time_key_release_received)
    ∧ (∀ (t : ℚ) (k : String) (s : NavState V),
      (_key_movement_bindings k).isSome = true →
      (tkKeyPress t k s).time_key_release_received
        = eraseA s.time_key_release_received k)
    ∧ (∀ (t : ℚ) (k : String) (s : NavState V),
      (_key_movement_bindings k).isSome = false →
      tkKeyPress t k s = s) := by
  refine ⟨?_, ?_, ?_, ?_, ?_⟩
  · intro t k s
    exact lookupA_insertA_self _ k t
  · intro t k k2 s h
    exact lookupA_insertA_ne _ k k2 t h
  · intro upd t s
    simp only [do_movement]
    split <;> rfl
  · intro t k s hb
    by_cases hmem : k ∈ s.current_keys_pressed <;> simp [tkKeyPress, hb, hmem]
  · intro t k s hb
    simp [tkKeyPress, hb]

theorem C10_release_records_witness :
    lookupA (tkKeyRelease 3 "q" exHeldA).time_key_release_received "q" = some 3
    ∧ (tkKeyPress 4 "a" exHeldA).time_key_release_received
        = eraseA exHeldA.time_key_release_received "a" :=
  ⟨(C10_release_records_persist Unit).1 3 "q" exHeldA,
   (C10_release_records_persist Unit).2.2.2.1 4 "a" exHeldA rfl⟩

/-- Claim C8 counterexample: the button-release handler does not clear the
orbit anchor `last_mouse_pos`, so an orbit drag callback delivered after the
release still modifies the view state (here from 0 to 1 with an update
function that increments). -/
theorem C8_release_leaves_orbit_anchor :
    (tkButtonRelease1 exOrbit).last_mouse_pos = some (0, 0)
    ∧ exOrbit.view_state = 0
    ∧ (tkAltButtonMotion1 (fun (v : ℕ) _ => v + 1) 1 0
        (tkButtonRelease1 exOrbit)).view_state = 1 := ⟨rfl, rfl, rfl⟩

/-- Claim C8 (amended): every drag callback whose gesture anchor is unset
is a no-op on the whole state; the button release clears the free/rotation
gesture anchor `mouse_pos_when_pressed` (and nothing else), so free and
rotation drag callbacks after a release are no-ops until a new press — but
the release does not clear the orbit anchor `last_mouse_pos`, so an orbit
drag after release can still modify the view state. -/
theorem C8_no_anchor_drags_are_noops (V : Type) (upd : V → Mat4 → V)
    (x y : ℚ) (s : NavState V) :
    (s.mouse_pos_when_pressed = none → tkButtonMotion1 upd x y s = s)
    ∧ (s.mouse_pos_when_pressed = none → tkCtrlButtonMotion1 upd x y s = s)
    ∧ (s.last_mouse_pos = none → tkAltButtonMotion1 upd x y s = s)
    ∧ (tkButtonRelease1 s = { s with mouse_pos_when_pressed := none })
    ∧ (tkButtonMotion1 upd x y (tkButtonRelease1 s) = tkButtonRelease1 s)
    ∧ (tkCtrlButtonMotion1 upd x y (tkButtonRelease1 s) = tkButtonRelease1 s) := by
  refine ⟨?_, ?_, ?_, rfl, ?_, ?_⟩
  · intro h
    simp [tkButtonMotion1, h]
  · intro h
    simp [tkCtrlButtonMotion1, h]
  · intro h
    simp [tkAltButtonMotion1, h]
  · simp [tkButtonMotion1, tkButtonRelease1]
  · simp [tkCtrlButtonMotion1, tkButtonRelease1]

theorem C8_noop_witness :
    tkButtonMotion1 (fun (v : Unit) _ => v) 3 4 exHeldA = exHeldA :=
  (C8_no_anchor_drags_are_noops Unit (fun v _ => v) 3 4 exHeldA).1 rfl

/-- Claim C6: a free-gesture drag with nonzero delta builds the translation
along the normalized direction (x inverted, y kept, 0 depth) with distance
|delta| * 0.01 and applies it to the anchored view state; replaying the same
drag position is idempotent, because the handler never changes the anchor
it computes from. -/
theorem C6_free_drag_operator_and_idempotence (V : Type) (upd : V → Mat4 → V)
    (x y px py : ℚ) (s : NavState V)
    (h : s.mouse_pos_when_pressed = some (px, py))
    (hnz : ¬((x - px)^2 + (y - py)^2 = 0)) :
    (tkButtonMotion1 upd x y s).view_state
      = upd s.view_state_when_pressed
          (unit_3_vector_and_distance_to_O13_hyperbolic_translation
            ![-((x - px : ℚ) : ℝ) / Real.sqrt (((x - px)^2 + (y - py)^2 : ℚ) : ℝ),
              ((y - py : ℚ) : ℝ) / Real.sqrt (((x - px)^2 + (y - py)^2 : ℚ) : ℝ),
              0]
            (Real.sqrt (((x - px)^2 + (y - py)^2 : ℚ) : ℝ) * 0.01))
    ∧ tkButtonMotion1 upd x y (tkButtonMotion1 upd x y s)
        = tkButtonMotion1 upd x y s := by
  constructor
  · simp [tkButtonMotion1, h, hnz]
  · cases hm : s.mouse_pos_when_pressed with
    | none => simp [tkButtonMotion1, hm]
    | some p =>
      obtain ⟨qx, qy⟩ := p
      by_cases hz : (x - qx)^2 + (y - qy)^2 = 0
      · simp [tkButtonMotion1, hm, hz]
      · simp [tkButtonMotion1, hm, hz]

theorem C6_free_drag_witness :
    (tkButtonMotion1 (fun (v : ℕ) _ => v) 103 104 exAnchored).view_state
      = (fun (v : ℕ) _ => v) exAnchored.view_state_when_pressed
          (unit_3_vector_and_distance_to_O13_hyperbolic_translation
            ![-((103 - 100 : ℚ) : ℝ)
                / Real.sqrt (((103 - 100)^2 + (104 - 100)^2 : ℚ) : ℝ),
              ((104 - 100 : ℚ) : ℝ)
                / Real.sqrt (((103 - 100)^2 + (104 - 100)^2 : ℚ) : ℝ),
              0]
            (Real.sqrt (((103 - 100)^2 + (104 - 100)^2 : ℚ) : ℝ) * 0.01))
    ∧ tkButtonMotion1 (fun (v : ℕ) _ => v) 103 104
        (tkButtonMotion1 (fun (v : ℕ) _ => v) 103 104 exAnchored)
      = tkButtonMotion1 (fun (v : ℕ) _ => v) 103 104 exAnchored :=
  C6_free_drag_operator_and_idempotence ℕ (fun v _ => v) 103 104 100 100
    exAnchored rfl (by norm_num)

/-- Claim C5: the orbit press anchors the sample position and view state,
unprojects the pixel (flip y, center, divide both axes by the viewport
width, depth axis -0.5 / tan(fov/360*pi), normalize to unit length), builds
the forward translation of distance atanh(depth) and the inverse of
distance atanh(-depth) along that direction, and resets the accumulated
rotation to the identity; every subsequent drag sample rebuilds the view
state from the anchor through forward * accumulated rotation * inverse. -/
theorem C5_orbit_press_and_drag (V : Type) (upd : V → Mat4 → V) :
    (∀ (x y : ℚ) (depth : ℝ) (width height : ℚ) (fov : ℝ) (s : NavState V),
      tkAltButton1 x y depth width height fov s
        = { s with
            last_mouse_pos := some (x, y),
            view_state_when_pressed := s.view_state,
            orbit_translation :=
              unit_3_vector_and_distance_to_O13_hyperbolic_translation
                (normalized3 ![(((x - 0.5 * width) / width : ℚ) : ℝ),
                   ((((height - y) - 0.5 * height) / width : ℚ) : ℝ),
                   -0.5 / Real.tan (fov / 360 * Real.pi)])
                (artanh depth),
            orbit_inv_translation :=
              unit_3_vector_and_distance_to_O13_hyperbolic_translation
                (normalized3 ![(((x - 0.5 * width) / width : ℚ) : ℝ),
                   ((((height - y) - 0.5 * height) / width : ℚ) : ℝ),
                   -0.5 / Real.tan (fov / 360 * Real.pi)])
                (artanh (-depth)),
            orbit_rotation := 1 })
    ∧ (∀ (x y px py : ℚ) (s : NavState V), s.last_mouse_pos = some (px, py) →
        (tkAltButtonMotion1 upd x y s).view_state
          = upd s.view_state_when_pressed
              (s.orbit_translation
                * (s.orbit_rotation
                    * (O13_y_rotation (((x - px : ℚ) : ℝ) * 0.01)
                       * O13_x_rotation (((y - py : ℚ) : ℝ) * 0.01)))
                * s.orbit_inv_translation)
          ∧ (tkAltButtonMotion1 upd x y s).view_state_when_pressed
              = s.view_state_when_pressed) := by
  constructor
  · intro x y depth width height fov s
    simp [tkAltButton1, idMat4_eq_one]
  · intro x y px py s h
    constructor
    · simp [tkAltButtonMotion1, h]
    · simp [tkAltButtonMotion1, h]

theorem C5_orbit_witness :
    (tkAltButtonMotion1 (fun (v : ℕ) _ => v + 1) 1 0 exOrbit).view_state
      = (fun (v : ℕ) _ => v + 1) exOrbit.view_state_when_pressed
          (exOrbit.orbit_translation
            * (exOrbit.orbit_rotation
                * (O13_y_rotation (((1 - 0 : ℚ) : ℝ) * 0.01)
                   * O13_x_rotation (((0 - 0 : ℚ) : ℝ) * 0.01)))
            * exOrbit.orbit_inv_translation)
    ∧ (tkAltButtonMotion1 (fun (v : ℕ) _ => v + 1) 1 0
        exOrbit).view_state_when_pressed = exOrbit.view_state_when_pressed :=
  (C5_orbit_press_and_drag ℕ (fun v _ => v + 1)).2 1 0 0 0 exOrbit rfl

/-- Claim C4: a tick at time t1 with only "a" held integrates the elapsed
time from the key's own last-integrated timestamp t0, updates that
timestamp to t1, and applies the translation of distance
(t1 - t0) * translationVelocity in the negative-x direction, re-arming the
tick; with only "Left" held the rotation velocity scales the angle instead;
and when "a" carries a release record older than the 0.005 s debounce
window the tick evicts it, leaving the empty held set, an untouched view
state and no re-arm. -/
theorem C4_tick_integrates_per_key_elapsed_time (V : Type) (upd : V → Mat4 → V) :
    (∀ (t0 t1 tv rv : ℚ) (vs vsp : V) (mp lp : Option (ℚ × ℚ))
       (m1 m2 m3 : Mat4) (pt : ℕ),
      do_movement upd t1
          ⟨mp, vsp, lp, ["a"], [], [("a", t0)], vs, tv, rv, m1, m2, m3, pt⟩
        = ⟨mp, vsp, lp, ["a"], [], [("a", t1)],
           upd vs (idMat4 * unit_3_vector_and_distance_to_O13_hyperbolic_translation
             ![-1, 0, 0] (((t1 - t0) * tv : ℚ) : ℝ)),
           tv, rv, m1, m2, m3, pt - 1 + 1⟩)
    ∧ (∀ (t0 t1 tv rv : ℚ) (vs vsp : V) (mp lp : Option (ℚ × ℚ))
       (m1 m2 m3 : Mat4) (pt : ℕ),
      do_movement upd t1
          ⟨mp, vsp, lp, ["Left"], [], [("Left", t0)], vs, tv, rv, m1, m2, m3, pt⟩
        = ⟨mp, vsp, lp, ["Left"], [], [("Left", t1)],
           upd vs (idMat4 * O13_y_rotation (-(((t1 - t0) * rv : ℚ) : ℝ))),
           tv, rv, m1, m2, m3, pt - 1 + 1⟩)
    ∧ (∀ (tr t2 tv rv : ℚ) (vs vsp : V) (mp lp : Option (ℚ × ℚ))
       (lt : List (String × ℚ)) (m1 m2 m3 : Mat4) (pt : ℕ),
      t2 - tr > 0.005 →
      do_movement upd t2
          ⟨mp, vsp, lp, ["a"], [("a", tr)], lt, vs, tv, rv, m1, m2, m3, pt⟩
        = ⟨mp, vsp, lp, [], [("a", tr)], lt, vs, tv, rv, m1, m2, m3, pt - 1⟩) := by
  refine ⟨?_, ?_, ?_⟩
  · intro t0 t1 tv rv vs vsp mp lp m1 m2 m3 pt
    rfl
  · intro t0 t1 tv rv vs vsp mp lp m1 m2 m3 pt
    rfl
  · intro tr t2 tv rv vs vsp mp lp lt m1 m2 m3 pt h
    simp [do_movement, lookupA, h]

theorem C4_tick_integration_witness :
    do_movement (fun (v : Unit) _ => v) 1
        ⟨none, Unit.unit, none, ["a"], [("a", 0)], [("a", 0)], Unit.unit,
         2/5, 2/5, idMat4, idMat4, idMat4, 1⟩
      = ⟨none, Unit.unit, none, [], [("a", 0)], [("a", 0)], Unit.unit,
         2/5, 2/5, idMat4, idMat4, idMat4, 0⟩ :=
  (C4_tick_integrates_per_key_elapsed_time Unit (fun v _ => v)).2.2 0 1
    (2/5) (2/5) Unit.unit Unit.unit none none [("a", 0)]
    idMat4 idMat4 idMat4 1 (by norm_num)

/-- Claim C3 counterexample: on a tick with "a" and "Left" held, the
operator the code applies (recorded through an update function returning
its operator argument) differs from the left-multiplied accumulator the
claim describes — the (0,3) entries are sinh(2/5)*sin(2/5) and 0. -/
theorem C3_left_multiplication_fails :
    (do_movement (fun (_ m : Mat4) => m) 1 exC3).view_state
      ≠ claimed_tick_operator 1 exC3 := by
  have hL : (do_movement (fun (_ m : Mat4) => m) 1 exC3).view_state
      = idMat4 * unit_3_vector_and_distance_to_O13_hyperbolic_translation
          ![-1, 0, 0] (((1 - 0) * (2/5) : ℚ) : ℝ)
        * O13_y_rotation (-(((1 - 0) * (2/5) : ℚ) : ℝ)) := rfl
  have hR : claimed_tick_operator 1 exC3
      = O13_y_rotation (-(((1 - 0) * (2/5) : ℚ) : ℝ))
        * (unit_3_vector_and_distance_to_O13_hyperbolic_translation
            ![-1, 0, 0] (((1 - 0) * (2/5) : ℚ) : ℝ) * idMat4) := rfl
  intro hEq
  have h03 := congrArg (fun M : Mat4 => M 0 3) hEq
  rw [hL, hR] at h03
  simp only [idMat4_eq_one, one_mul, mul_one] at h03
  have hc : (((1 - 0) * (2/5) : ℚ) : ℝ) = (2/5 : ℝ) := by norm_num
  rw [hc] at h03
  have hLv : (unit_3_vector_and_distance_to_O13_hyperbolic_translation
      ![-1, 0, 0] (2/5 : ℝ) * O13_y_rotation (-(2/5 : ℝ))) 0 3
      = Real.sinh (2/5) * Real.sin (2/5) := by
    simp [unit_3_vector_and_distance_to_O13_hyperbolic_translation,
      O13_y_rotation, Matrix.mul_apply, Fin.sum_univ_four,
      Real.sin_neg, Real.cos_neg]
  have hRv : (O13_y_rotation (-(2/5 : ℝ))
      * unit_3_vector_and_distance_to_O13_hyperbolic_translation
          ![-1, 0, 0] (2/5 : ℝ)) 0 3 = 0 := by
    simp [unit_3_vector_and_distance_to_O13_hyperbolic_translation,
      O13_y_rotation, Matrix.mul_apply, Fin.sum_univ_four,
      Real.sin_neg, Real.cos_neg]
  rw [hLv, hRv] at h03
  have hsinh : (0:ℝ) < Real.sinh (2/5) := by
    rw [Real.sinh_pos_iff]
    norm_num
  have hsin : (0:ℝ) < Real.sin (2/5) := by
    apply Real.sin_pos_of_pos_of_lt_pi
    · norm_num
    · have := Real.pi_gt_three
      linarith
  exact absurd h03 (ne_of_gt (mul_pos hsinh hsin))

/-- Claim C3 (amended): both accumulators start at the 4x4 identity and are
extended by RIGHT multiplication of each newly built operator: on a tick
the per-tick accumulator becomes accumulator * operator for each held key
in order, and on an orbit drag sample the accumulated rotation becomes
accumulated rotation * (y_rotation(dx*0.01) * x_rotation(dy*0.01)). -/
theorem C3_accumulators_extend_by_right_multiplication
    (V : Type) (upd : V → Mat4 → V) :
    (∀ (t0a t0L t1 tv rv : ℚ) (vs vsp : V) (mp lp : Option (ℚ × ℚ))
       (m1 m2 m3 : Mat4) (pt : ℕ),
      do_movement upd t1
          ⟨mp, vsp, lp, ["a", "Left"], [], [("a", t0a), ("Left", t0L)],
           vs, tv, rv, m1, m2, m3, pt⟩
        = ⟨mp, vsp, lp, ["a", "Left"], [], [("a", t1), ("Left", t1)],
           upd vs ((idMat4 * unit_3_vector_and_distance_to_O13_hyperbolic_translation
                ![-1, 0, 0] (((t1 - t0a) * tv : ℚ) : ℝ))
              * O13_y_rotation (-(((t1 - t0L) * rv : ℚ) : ℝ))),
           tv, rv, m1, m2, m3, pt - 1 + 1⟩)
    ∧ (∀ (x y : ℚ) (depth : ℝ) (width height : ℚ) (fov : ℝ) (s : NavState V),
        (tkAltButton1 x y depth width height fov s).orbit_rotation = 1)
    ∧ (∀ (x y px py : ℚ) (s : NavState V), s.last_mouse_pos = some (px, py) →
        (tkAltButtonMotion1 upd x y s).orbit_rotation
          = s.orbit_rotation
            * (O13_y_rotation (((x - px : ℚ) : ℝ) * 0.01)
               * O13_x_rotation (((y - py : ℚ) : ℝ) * 0.01))) := by
  refine ⟨?_, ?_, ?_⟩
  · intro t0a t0L t1 tv rv vs vsp mp lp m1 m2 m3 pt
    rfl
  · intro x y depth width height fov s
    simp [tkAltButton1, idMat4_eq_one]
  · intro x y px py s h
    simp [tkAltButtonMotion1, h]

theorem C3_right_multiplication_witness :
    (tkAltButtonMotion1 (fun (v : ℕ) _ => v + 1) 1 0 exOrbit).orbit_rotation
      = exOrbit.orbit_rotation
        * (O13_y_rotation (((1 - 0 : ℚ) : ℝ) * 0.01)
           * O13_x_rotation (((0 - 0 : ℚ) : ℝ) * 0.01)) :=
  (C3_accumulators_extend_by_right_multiplication ℕ
    (fun v _ => v + 1)).2.2 1 0 0 0 exOrbit rfl

/-- Claim C1: every Lorentz operator produced or composed by the navigation
core preserves the signature-(-,+,+,+) Minkowski quadratic form: each of
the twelve key-binding operators for any amounts, every translation along a
unit direction, every axis rotation, the free-gesture translation operator
for any nonzero screen delta, the orbit translation along any normalized
nonzero direction, and every matrix product of form-preserving operators
(hence every accumulator built in a tick or drag).  Over the reals the
preservation is exact; floating-point tolerance has no residue here. -/
theorem C1_every_navigation_operator_preserves_lorentz_form :
    (∀ (k : String) (f : ℝ → ℝ → Mat4), _key_movement_bindings k = some f →
      ∀ (ra ta : ℝ), preservesQ (f ra ta))
    ∧ (∀ (u : Fin 3 → ℝ), (u 0)^2 + (u 1)^2 + (u 2)^2 = 1 → ∀ d : ℝ,
        preservesQ (unit_3_vector_and_distance_to_O13_hyperbolic_translation u d))
    ∧ (∀ t : ℝ, preservesQ (O13_x_rotation t))
    ∧ (∀ t : ℝ, preservesQ (O13_y_rotation t))
    ∧ (∀ t : ℝ, preservesQ (O13_z_rotation t))
    ∧ (∀ (dx dy : ℚ), ¬(dx^2 + dy^2 = 0) → ∀ d : ℝ,
        preservesQ (unit_3_vector_and_distance_to_O13_hyperbolic_translation
          ![-(dx : ℝ) / Real.sqrt ((dx^2 + dy^2 : ℚ) : ℝ),
            (dy : ℝ) / Real.sqrt ((dx^2 + dy^2 : ℚ) : ℝ), 0] d))
    ∧ (∀ (p : Fin 3 → ℝ), (p 0)^2 + (p 1)^2 + (p 2)^2 ≠ 0 → ∀ d : ℝ,
        preservesQ (unit_3_vector_and_distance_to_O13_hyperbolic_translation
          (normalized3 p) d))
    ∧ (∀ M N : Mat4, preservesQ M → preservesQ N → preservesQ (M * N)) := by
  refine ⟨?_, preservesQ_translation, preservesQ_x_rotation,
    preservesQ_y_rotation, preservesQ_z_rotation, ?_, ?_, preservesQ_mul⟩
  · intro k f hk ra ta
    unfold _key_movement_bindings at hk
    by_cases h1 : k = "a"
    · rw [if_pos h1] at hk
      cases hk
      exact preservesQ_translation _ (by norm_num) _
    rw [if_neg h1] at hk
    by_cases h2 : k = "d"
    · rw [if_pos h2] at hk
      cases hk
      exact preservesQ_translation _ (by norm_num) _
    rw [if_neg h2] at hk
    by_cases h3 : k = "c"
    · rw [if_pos h3] at hk
      cases hk
      exact preservesQ_translation _ (by norm_num) _
    rw [if_neg h3] at hk
    by_cases h4 : k = "e"
    · rw [if_pos h4] at hk
      cases hk
      exact preservesQ_translation _ (by norm_num) _
    rw [if_neg h4] at hk
    by_cases h5 : k = "w"
    · rw [if_pos h5] at hk
      cases hk
      exact preservesQ_translation _ (by norm_num) _
    rw [if_neg h5] at hk
    by_cases h6 : k = "s"
    · rw [if_pos h6] at hk
      cases hk
      exact preservesQ_translation _ (by norm_num) _
    rw [if_neg h6] at hk
    by_cases h7 : k = "Left"
    · rw [if_pos h7] at hk
      cases hk
      exact preservesQ_y_rotation _
    rw [if_neg h7] at hk
    by_cases h8 : k = "Right"
    · rw [if_pos h8] at hk
      cases hk
      exact preservesQ_y_rotation _
    rw [if_neg h8] at hk
    by_cases h9 : k = "Up"
    · rw [if_pos h9] at hk
      cases hk
      exact preservesQ_x_rotation _
    rw [if_neg h9] at hk
    by_cases h10 : k = "Down"
    · rw [if_pos h10] at hk
      cases hk
      exact preservesQ_x_rotation _
    rw [if_neg h10] at hk
    by_cases h11 : k = "x"
    · rw [if_pos h11] at hk
      cases hk
      exact preservesQ_z_rotation _
    rw [if_neg h11] at hk
    by_cases h12 : k = "z"
    · rw [if_pos h12] at hk
      cases hk
      exact preservesQ_z_rotation _
    rw [if_neg h12] at hk
    exact Option.noConfusion hk
  · intro dx dy h d
    apply preservesQ_translation
    have hSq : ((dx^2 + dy^2 : ℚ) : ℝ) = (dx : ℝ)^2 + (dy : ℝ)^2 := by
      push_cast
      ring
    have hne : ((dx^2 + dy^2 : ℚ) : ℝ) ≠ 0 := by exact_mod_cast h
    have hS0 : (0:ℝ) ≤ ((dx^2 + dy^2 : ℚ) : ℝ) := by
      rw [hSq]
      positivity
    have hsq := Real.sq_sqrt hS0
    simp only [Matrix.cons_val_zero, Matrix.cons_val_one, Matrix.head_cons,
      Matrix.cons_val_two, Matrix.tail_cons]
    rw [show (-(dx : ℝ) / Real.sqrt ((dx^2 + dy^2 : ℚ) : ℝ))^2
        + ((dy : ℝ) / Real.sqrt ((dx^2 + dy^2 : ℚ) : ℝ))^2 + (0:ℝ)^2
        = ((dx : ℝ)^2 + (dy : ℝ)^2) / (Real.sqrt ((dx^2 + dy^2 : ℚ) : ℝ))^2
        from by ring]
    rw [hsq, ← hSq]
    exact div_self hne
  · intro p hp d
    exact preservesQ_translation _ (normalized3_unit p hp) d

theorem C1_lorentz_form_witness :
    Qform ((unit_3_vector_and_distance_to_O13_hyperbolic_translation
        ![(1:ℝ), 0, 0] 1).mulVec ![1, 0, 0, 0]) = Qform ![1, 0, 0, 0] :=
  C1_every_navigation_operator_preserves_lorentz_form.2.1
    ![(1:ℝ), 0, 0] (by simp) 1 ![1, 0, 0, 0]
